import Mathlib

/-!
Verification of the adaptive gain decision engine of `autogain.py`
(dynamic microphone gain control, silence watchdog, calibration transform).

The controller, watchdog and control-loop cycle are embedded as computable
functions over `ℚ` (measurements, gains) and `ℤ` (actuator dB values).
The calibration transform and the RMS level meter, which use `10 ** (x/20)`
and `sqrt`, are embedded over `ℝ`.
-/

namespace Autogain

/-! ### Default configuration (module constants of autogain.py) -/

/-- MIN_GAIN_DB = 30 -/
def MIN_GAIN_DB : ℤ := 30

/-- MAX_GAIN_DB = 38 -/
def MAX_GAIN_DB : ℤ := 38

/-- GAIN_STEP_DB = 3 -/
def GAIN_STEP_DB : ℤ := 3

/-- NOISE_THRESHOLD_HIGH = 0.01 -/
def NOISE_THRESHOLD_HIGH : ℚ := 1/100

/-- NOISE_THRESHOLD_LOW = 0.001 -/
def NOISE_THRESHOLD_LOW : ℚ := 1/1000

/-- NO_SIGNAL_THRESHOLD = 1e-6 -/
def NO_SIGNAL_THRESHOLD : ℚ := 1/1000000

/-- NO_SIGNAL_COUNT_THRESHOLD = 3 -/
def NO_SIGNAL_COUNT_THRESHOLD : ℕ := 3

/-- LOWCUT = 2000 -/
def LOWCUT : ℚ := 2000

/-- HIGHCUT = 8000 -/
def HIGHCUT : ℚ := 8000

/-- SAMPLING_RATE = 48000 -/
def SAMPLING_RATE : ℚ := 48000

/-! ### Gain actuator write (`set_gain_db`, lines 88-99) -/

/-- Python `int(x)` truncation toward zero. -/
def pyInt (x : ℚ) : ℤ := if 0 ≤ x then ⌊x⌋ else ⌈x⌉

/-- Line 89: `gain_db = max(min(gain_db, MAX_GAIN_DB), MIN_GAIN_DB)`. -/
def clampGain (g : ℚ) : ℚ := max (min g (MAX_GAIN_DB : ℚ)) (MIN_GAIN_DB : ℚ)

/-- The dB value handed to the actuator by `set_gain_db`: the argument is
clamped to the gain bounds (line 89) and the amixer command receives
`int(gain_db)` (line 92). -/
def set_gain_db (g : ℚ) : ℤ := pyInt (clampGain g)

/-! ### Gain decision (`dynamic_gain_control`, lines 291-294) -/

/-- The value passed to `set_gain_db` this cycle, if any: step down when the
measurement is above the high threshold, step up when below the low
threshold, and in the inclusive dead zone make no write. -/
def gainDecision (rms g : ℚ) : Option ℚ :=
  if NOISE_THRESHOLD_HIGH < rms then some (g - (GAIN_STEP_DB : ℚ))
  else if rms < NOISE_THRESHOLD_LOW then some (g + (GAIN_STEP_DB : ℚ))
  else none

/-! ### Silence watchdog (`dynamic_gain_control`, lines 276-283) -/

/-- One watchdog update: returns the new `no_signal_count` and whether the
remediation action fires this cycle.  Lines 276-283: a sub-threshold
measurement increments the counter and fires when it is at or past
`NO_SIGNAL_COUNT_THRESHOLD`; otherwise the counter resets to 0. -/
def watchdogStep (rms : ℚ) (count : ℕ) : ℕ × Bool :=
  if rms < NO_SIGNAL_THRESHOLD then
    (count + 1, decide (NO_SIGNAL_COUNT_THRESHOLD ≤ count + 1))
  else (0, false)

/-- Run the watchdog over a list of measurements, collecting the fire flag of
each update. -/
def runWatchdog (count : ℕ) : List ℚ → ℕ × List Bool
  | [] => (count, [])
  | m :: ms =>
    let s := watchdogStep m count
    let r := runWatchdog s.1 ms
    (r.1, s.2 :: r.2)

/-! ### Control-loop cycle (`dynamic_gain_control`, lines 258-296) -/

/-- Error raised inside `bandpass_filter` by the filter design routine. -/
inductive CycleError where
  | invalidFilterConfig
deriving DecidableEq

/-- Modelled from the spec: the validity check of the band-pass filter
configuration.  It is enforced by the filter design routine
(`scipy.signal.butter`, external library code called from
`bandpass_filter`, line 119): the configuration is invalid when
`low_cut ≥ high_cut` or either cutoff is at or above half the sample
rate. -/
def validFilterConfig (lowcut highcut fs : ℚ) : Bool :=
  decide (lowcut < highcut) && decide (lowcut < fs / 2) && decide (highcut < fs / 2)

/-- Lines 118-120: the filter design runs inside `bandpass_filter`, on every
call, and raises on an invalid configuration.  The numeric IIR filtering
itself (`scipy.signal.sosfilt`) is external library code; downstream the
cycle consumes only the RMS of the filtered buffer, supplied by the
measurement oracle `cm` below. -/
def bandpass_filter (audio : List ℚ) (lowcut highcut fs : ℚ) :
    Except CycleError (List ℚ) :=
  if validFilterConfig lowcut highcut fs then Except.ok audio
  else Except.error CycleError.invalidFilterConfig

/-- One iteration of the `while True` loop of `dynamic_gain_control`
(lines 264-296).  Inputs: the filter configuration, the measurement oracle
`cm` (the composite `measure_rms ∘ sosfilt`, whose numeric value the claims
quantify over), the current `no_signal_count`, the capture result and the
actuator read result.  Output: the new `no_signal_count`, whether the
remediation action fired, and the dB value written to the actuator (if
any).  Capture failure (line 266) and actuator read failure (line 286)
short-circuit the rest of the cycle. -/
def cycleStep (lowcut highcut fs : ℚ) (cm : List ℚ → ℚ) (count : ℕ)
    (cap : Option (List ℚ)) (gainRead : Option ℚ) :
    Except CycleError (ℕ × Bool × Option ℤ) :=
  match cap with
  | none => Except.ok (count, false, none)
  | some audio =>
    if audio.length = 0 then Except.ok (count, false, none)
    else
      match bandpass_filter audio lowcut highcut fs with
      | Except.error e => Except.error e
      | Except.ok filtered =>
        let rms := cm filtered
        let wd := watchdogStep rms count
        match gainRead with
        | none => Except.ok (wd.1, wd.2, none)
        | some g => Except.ok (wd.1, wd.2, (gainDecision rms g).map set_gain_db)

/-- Line 260: the startup write
`set_gain_db(MICROPHONE_NAME, (MIN_GAIN_DB + MAX_GAIN_DB) // 2)`
(Python floor division). -/
def startupWrite : ℤ := set_gain_db (((MIN_GAIN_DB + MAX_GAIN_DB).fdiv 2 : ℤ) : ℚ)

/-- The gain stored by the actuator after the startup write. -/
def startupGainValue : ℚ := ((startupWrite : ℤ) : ℚ)

/-- Evolution of the actuator's gain over a sequence of measurements: each
cycle the decision is applied to the current gain and, when a write occurs,
the actuator holds the written value. -/
def traceGain (g : ℚ) : List ℚ → ℚ
  | [] => g
  | m :: ms =>
    traceGain
      (match gainDecision m g with
        | some p => ((set_gain_db p : ℤ) : ℚ)
        | none => g) ms

/-! ### Calibration transform (`calibrate_and_propose`, lines 146-188) -/

/-- REFERENCE_PRESSURE = 20e-6 -/
noncomputable def REFERENCE_PRESSURE : ℝ := 20e-6

/-- DEFAULT_SNR = 80.0 -/
noncomputable def DEFAULT_SNR : ℝ := 80

/-- DEFAULT_SELF_NOISE = 14.0 -/
noncomputable def DEFAULT_SELF_NOISE : ℝ := 14

/-- DEFAULT_CLIPPING = 120.0 -/
noncomputable def DEFAULT_CLIPPING : ℝ := 120

/-- DEFAULT_SENSITIVITY = -28.0 -/
noncomputable def DEFAULT_SENSITIVITY : ℝ := -28

/-- Lines 54-58: the default full-scale amplitude
`REFERENCE_PRESSURE * 10 ** (DEFAULT_CLIPPING / 20) * 10 ** (DEFAULT_SENSITIVITY / 20)`. -/
noncomputable def def_full_scale : ℝ :=
  REFERENCE_PRESSURE * (10 : ℝ) ^ (DEFAULT_CLIPPING / 20) * (10 : ℝ) ^ (DEFAULT_SENSITIVITY / 20)

/-- The microphone characteristics gathered by `interactive_calibration`. -/
structure MicParams where
  snr : ℝ
  self_noise : ℝ
  clipping : ℝ
  sensitivity : ℝ

/-- The dict returned by `calibrate_and_propose` (lines 183-188). -/
@[ext] structure Proposal where
  noise_threshold_high : ℝ
  noise_threshold_low : ℝ
  min_gain_db : ℝ
  max_gain_db : ℝ

/-- Lines 146-188: derive proposed thresholds and gain bounds from the
microphone parameters.  The returned values are exactly the local variables
`proposed_high`, `proposed_low`, `proposed_min_gain`, `proposed_max_gain`;
no rounding is applied before returning. -/
noncomputable def calibrate_and_propose (p : MicParams) : Proposal :=
  let user_full_scale :=
    REFERENCE_PRESSURE * (10 : ℝ) ^ (p.clipping / 20) * (10 : ℝ) ^ (p.sensitivity / 20)
  let fraction_high_default := (NOISE_THRESHOLD_HIGH : ℝ) / def_full_scale
  let fraction_low_default := (NOISE_THRESHOLD_LOW : ℝ) / def_full_scale
  let snr_ratio := p.snr / DEFAULT_SNR
  let gain_offset := DEFAULT_SENSITIVITY - p.sensitivity
  { noise_threshold_high := fraction_high_default * user_full_scale * snr_ratio
    noise_threshold_low := fraction_low_default * user_full_scale * snr_ratio
    min_gain_db := (MIN_GAIN_DB : ℝ) + gain_offset
    max_gain_db := (MAX_GAIN_DB : ℝ) + gain_offset }

/-! ### Persistence rounding (`persist_calibration_to_script`, lines 190-199) -/

/-- Python `round(x)`: nearest integer with ties to the even integer. -/
noncomputable def pyRound (x : ℝ) : ℤ :=
  if Int.fract x = 1/2 then (if ⌊x⌋ % 2 = 0 then ⌊x⌋ else ⌊x⌋ + 1)
  else round x

/-- Python `f"{x:.7f}"` as a number: x rounded to 7 decimal places. -/
noncomputable def roundTo7 (x : ℝ) : ℝ := (pyRound (x * 10 ^ 7) : ℝ) / 10 ^ 7

/-- Lines 191-196: the numeric values substituted into the script by
`persist_calibration_to_script`: thresholds formatted with 7 decimal
places, gain bounds as `int(round(...))`. -/
noncomputable def persistedValues (p : Proposal) : ℝ × ℝ × ℤ × ℤ :=
  (roundTo7 p.noise_threshold_high, roundTo7 p.noise_threshold_low,
    pyRound p.min_gain_db, pyRound p.max_gain_db)

/-! ### Level meter (`measure_rms`, lines 122-123) -/

/-- Lines 122-123: `sqrt(mean(audio**2))` for a nonempty buffer, `0.0` for
an empty one. -/
noncomputable def measure_rms (audio : List ℝ) : ℝ :=
  if 0 < audio.length then
    Real.sqrt ((audio.map fun x => x ^ 2).sum / audio.length)
  else 0

/-! ### Helper lemmas -/

theorem set_gain_db_bounds (g : ℚ) :
    MIN_GAIN_DB ≤ set_gain_db g ∧ set_gain_db g ≤ MAX_GAIN_DB := by
  have h1 : ((MIN_GAIN_DB : ℤ) : ℚ) ≤ clampGain g := le_max_right _ _
  have h2 : clampGain g ≤ ((MAX_GAIN_DB : ℤ) : ℚ) := by
    refine max_le (min_le_right _ _) ?_
    norm_num [MIN_GAIN_DB, MAX_GAIN_DB]
  have h0 : (0 : ℚ) ≤ clampGain g :=
    le_trans (by norm_num [MIN_GAIN_DB]) h1
  unfold set_gain_db pyInt
  rw [if_pos h0]
  refine ⟨Int.le_floor.mpr h1, ?_⟩
  have := Int.floor_mono h2
  simpa using this

theorem set_gain_db_intCast (n : ℤ) (h1 : MIN_GAIN_DB ≤ n) (h2 : n ≤ MAX_GAIN_DB) :
    set_gain_db (n : ℚ) = n := by
  unfold set_gain_db clampGain pyInt
  rw [min_eq_left (by exact_mod_cast h2), max_eq_left (by exact_mod_cast h1)]
  have h0 : (0 : ℚ) ≤ (n : ℚ) := by
    exact_mod_cast le_trans (by decide : (0 : ℤ) ≤ MIN_GAIN_DB) h1
  rw [if_pos h0]
  exact Int.floor_intCast n

theorem set_gain_db_clamp_above (g : ℚ) (h : ((MAX_GAIN_DB : ℤ) : ℚ) ≤ g) :
    set_gain_db g = MAX_GAIN_DB := by
  unfold set_gain_db clampGain pyInt
  have hmm : ((MIN_GAIN_DB : ℤ) : ℚ) ≤ ((MAX_GAIN_DB : ℤ) : ℚ) := by
    norm_num [MIN_GAIN_DB, MAX_GAIN_DB]
  have h0 : (0 : ℚ) ≤ ((MAX_GAIN_DB : ℤ) : ℚ) := by norm_num [MAX_GAIN_DB]
  rw [min_eq_right h, max_eq_left hmm, if_pos h0]
  exact Int.floor_intCast _

theorem startupWrite_eq : startupWrite = 34 := by
  unfold startupWrite
  rw [show (MIN_GAIN_DB + MAX_GAIN_DB).fdiv 2 = (34 : ℤ) from by decide]
  exact set_gain_db_intCast 34 (by decide) (by decide)

theorem traceGain_bounds (ms : List ℚ) (g : ℚ)
    (h1 : ((MIN_GAIN_DB : ℤ) : ℚ) ≤ g) (h2 : g ≤ ((MAX_GAIN_DB : ℤ) : ℚ)) :
    ((MIN_GAIN_DB : ℤ) : ℚ) ≤ traceGain g ms ∧
      traceGain g ms ≤ ((MAX_GAIN_DB : ℤ) : ℚ) := by
  induction ms generalizing g with
  | nil => exact ⟨h1, h2⟩
  | cons m ms ih =>
    simp only [traceGain]
    cases hd : gainDecision m g with
    | none => exact ih g h1 h2
    | some p =>
      have hb := set_gain_db_bounds p
      have hb1 : ((MIN_GAIN_DB : ℤ) : ℚ) ≤ ((set_gain_db p : ℤ) : ℚ) := by
        exact_mod_cast hb.1
      have hb2 : ((set_gain_db p : ℤ) : ℚ) ≤ ((MAX_GAIN_DB : ℤ) : ℚ) := by
        exact_mod_cast hb.2
      exact ih _ hb1 hb2

theorem runWatchdog_silent (ms : List ℚ) (c : ℕ)
    (h : ∀ m ∈ ms, m < NO_SIGNAL_THRESHOLD) :
    runWatchdog c ms =
      (c + ms.length,
        (List.range ms.length).map fun i =>
          decide (NO_SIGNAL_COUNT_THRESHOLD ≤ c + i + 1)) := by
  induction ms generalizing c with
  | nil => simp [runWatchdog]
  | cons m ms ih =>
    have hm : m < NO_SIGNAL_THRESHOLD := h m (List.mem_cons_self m ms)
    have hrest : ∀ x ∈ ms, x < NO_SIGNAL_THRESHOLD :=
      fun x hx => h x (List.mem_cons_of_mem m hx)
    simp only [runWatchdog, watchdogStep, if_pos hm, ih (c + 1) hrest]
    refine Prod.ext ?_ ?_
    · simp [List.length_cons]
      omega
    · rw [List.length_cons, List.range_succ_eq_map]
      simp only [List.map_cons, List.map_map]
      refine congrArg₂ List.cons ?_ ?_
      · rw [decide_eq_decide]
      · refine List.map_congr_left ?_
        intro i _
        simp only [Function.comp_apply]
        rw [decide_eq_decide]
        omega

/-! ### Claims about the controller and watchdog -/

/-- C1: every gain value the controller hands to the actuator write
(`set_gain_db` clamps before writing), including the startup midpoint
initialization, lies within `[MIN_GAIN_DB, MAX_GAIN_DB]`; and for any
sequence of measurements, repeatedly applying the gain decision and write
keeps the actuator's gain within those bounds. -/
theorem C1_gain_always_in_bounds :
    (∀ g : ℚ, MIN_GAIN_DB ≤ set_gain_db g ∧ set_gain_db g ≤ MAX_GAIN_DB) ∧
    (MIN_GAIN_DB ≤ startupWrite ∧ startupWrite ≤ MAX_GAIN_DB) ∧
    (∀ ms : List ℚ,
      ((MIN_GAIN_DB : ℤ) : ℚ) ≤ traceGain startupGainValue ms ∧
        traceGain startupGainValue ms ≤ ((MAX_GAIN_DB : ℤ) : ℚ)) := by
  have hs1 : ((MIN_GAIN_DB : ℤ) : ℚ) ≤ startupGainValue := by
    unfold startupGainValue
    rw [startupWrite_eq]
    norm_num [MIN_GAIN_DB]
  have hs2 : startupGainValue ≤ ((MAX_GAIN_DB : ℤ) : ℚ) := by
    unfold startupGainValue
    rw [startupWrite_eq]
    norm_num [MAX_GAIN_DB]
  refine ⟨set_gain_db_bounds, ?_, fun ms => traceGain_bounds ms startupGainValue hs1 hs2⟩
  rw [startupWrite_eq]
  exact ⟨by decide, by decide⟩

/-- C2: if the measurement lies in the inclusive dead zone
`[NOISE_THRESHOLD_LOW, NOISE_THRESHOLD_HIGH]`, the gain decision returns
nothing and the cycle performs no actuator write. -/
theorem C2_dead_zone_no_write (m g : ℚ)
    (h1 : NOISE_THRESHOLD_LOW ≤ m) (h2 : m ≤ NOISE_THRESHOLD_HIGH) :
    gainDecision m g = none ∧
    ∀ (cm : List ℚ → ℚ) (count : ℕ) (audio : List ℚ) (gR : Option ℚ),
      audio ≠ [] → cm audio = m →
      ∃ c f, cycleStep LOWCUT HIGHCUT SAMPLING_RATE cm count (some audio) gR =
        Except.ok (c, f, none) := by
  have hdec : ∀ g' : ℚ, gainDecision m g' = none := by
    intro g'
    unfold gainDecision
    rw [if_neg (not_lt.mpr h2), if_neg (not_lt.mpr h1)]
  refine ⟨hdec g, ?_⟩
  intro cm count audio gR hne hcm
  have hlen : ¬ audio.length = 0 := by simpa using hne
  have hv : validFilterConfig LOWCUT HIGHCUT SAMPLING_RATE = true := by
    simp only [validFilterConfig, LOWCUT, HIGHCUT, SAMPLING_RATE, Bool.and_eq_true,
      decide_eq_true_eq]
    norm_num
  cases gR with
  | none =>
    exact ⟨(watchdogStep (cm audio) count).1, (watchdogStep (cm audio) count).2,
      by simp [cycleStep, bandpass_filter, hv, hlen]⟩
  | some g' =>
    exact ⟨(watchdogStep (cm audio) count).1, (watchdogStep (cm audio) count).2,
      by simp [cycleStep, bandpass_filter, hv, hlen, hcm, hdec g']⟩

/-- Witness for C2 at measurement 1/200 and current gain 34. -/
theorem C2_dead_zone_no_write_witness :
    (NOISE_THRESHOLD_LOW ≤ (1/200 : ℚ) ∧ (1/200 : ℚ) ≤ NOISE_THRESHOLD_HIGH) ∧
    gainDecision (1/200) 34 = none :=
  ⟨⟨by norm_num [NOISE_THRESHOLD_LOW], by norm_num [NOISE_THRESHOLD_HIGH]⟩,
    (C2_dead_zone_no_write (1/200) 34 (by norm_num [NOISE_THRESHOLD_LOW])
      (by norm_num [NOISE_THRESHOLD_HIGH])).1⟩

/-- C3: the decision computes the stepped value first and then clamps it:
above the high threshold at gain 34 the written value is 31; below the low
threshold at gain 37 the proposal is 40 and the written value is the
clamped 38; and an out-of-range proposal is never rejected — a write always
occurs outside the dead zone. -/
theorem C3_step_then_clamp :
    (∀ m : ℚ, NOISE_THRESHOLD_HIGH < m →
      (gainDecision m 34).map set_gain_db = some 31) ∧
    (∀ m : ℚ, m < NOISE_THRESHOLD_LOW →
      gainDecision m 37 = some 40 ∧
        (gainDecision m 37).map set_gain_db = some 38) ∧
    (∀ m g : ℚ, m < NOISE_THRESHOLD_LOW ∨ NOISE_THRESHOLD_HIGH < m →
      ((gainDecision m g).map set_gain_db).isSome = true) := by
  have hlh : ∀ m : ℚ, m < NOISE_THRESHOLD_LOW → ¬ NOISE_THRESHOLD_HIGH < m := by
    intro m hm
    refine not_lt.mpr (le_of_lt (lt_trans hm ?_))
    norm_num [NOISE_THRESHOLD_LOW, NOISE_THRESHOLD_HIGH]
  refine ⟨?_, ?_, ?_⟩
  · intro m hm
    unfold gainDecision
    rw [if_pos hm]
    rw [show (34 - (GAIN_STEP_DB : ℤ) : ℚ) = ((31 : ℤ) : ℚ) from by
      norm_num [GAIN_STEP_DB]]
    rw [Option.map_some', set_gain_db_intCast 31 (by decide) (by decide)]
  · intro m hm
    unfold gainDecision
    rw [if_neg (hlh m hm), if_pos hm]
    have h40 : (37 + (GAIN_STEP_DB : ℤ) : ℚ) = ((40 : ℤ) : ℚ) := by
      norm_num [GAIN_STEP_DB]
    constructor
    · rw [h40]
      norm_num
    · rw [h40, Option.map_some',
        set_gain_db_clamp_above _ (by norm_num [MAX_GAIN_DB]),
        show MAX_GAIN_DB = (38 : ℤ) from by decide]
  · intro m g h
    unfold gainDecision
    rcases h with h | h
    · rw [if_neg (hlh m h), if_pos h]
      simp
    · rw [if_pos h]
      simp

/-- Witness for C3 at measurements 1 and 0. -/
theorem C3_step_then_clamp_witness :
    (NOISE_THRESHOLD_HIGH < (1 : ℚ) ∧
      (gainDecision 1 34).map set_gain_db = some 31) ∧
    ((0 : ℚ) < NOISE_THRESHOLD_LOW ∧ gainDecision 0 37 = some 40 ∧
      (gainDecision 0 37).map set_gain_db = some 38) :=
  ⟨⟨by norm_num [NOISE_THRESHOLD_HIGH],
      C3_step_then_clamp.1 1 (by norm_num [NOISE_THRESHOLD_HIGH])⟩,
    ⟨by norm_num [NOISE_THRESHOLD_LOW],
      (C3_step_then_clamp.2.1 0 (by norm_num [NOISE_THRESHOLD_LOW])).1,
      (C3_step_then_clamp.2.1 0 (by norm_num [NOISE_THRESHOLD_LOW])).2⟩⟩

/-- C4: each sub-threshold measurement increments `no_signal_count` and any
other measurement resets it to 0; remediation fires exactly when the new
count reaches `NO_SIGNAL_COUNT_THRESHOLD` (3), so over a run of silent
measurements the third and every later update fires with no suppression,
the counter growing to the length of the run until a measurement at or
above the threshold resets it. -/
theorem C4_watchdog (ms : List ℚ) (h : ∀ m ∈ ms, m < NO_SIGNAL_THRESHOLD) :
    (runWatchdog 0 ms).1 = ms.length ∧
    (runWatchdog 0 ms).2 =
      (List.range ms.length).map
        (fun i => decide (NO_SIGNAL_COUNT_THRESHOLD ≤ i + 1)) ∧
    (∀ (m : ℚ) (c : ℕ), m < NO_SIGNAL_THRESHOLD →
      watchdogStep m c = (c + 1, decide (NO_SIGNAL_COUNT_THRESHOLD ≤ c + 1))) ∧
    (∀ (m : ℚ) (c : ℕ), NO_SIGNAL_THRESHOLD ≤ m → watchdogStep m c = (0, false)) := by
  have hr := runWatchdog_silent ms 0 h
  refine ⟨?_, ?_, ?_, ?_⟩
  · rw [hr]
    simp
  · rw [hr]
    simp
  · intro m c hm
    simp [watchdogStep, hm]
  · intro m c hm
    simp [watchdogStep, not_lt.mpr hm]

/-- Witness for C4: three measurements of 1e-7 make the third (and only the
third) update fire with final count 3, and a loud measurement resets. -/
theorem C4_watchdog_witness :
    (runWatchdog 0 [(1 : ℚ)/10000000, 1/10000000, 1/10000000]).1 = 3 ∧
    (runWatchdog 0 [(1 : ℚ)/10000000, 1/10000000, 1/10000000]).2 =
      [false, false, true] ∧
    watchdogStep 1 3 = (0, false) := by
  have h := C4_watchdog [(1 : ℚ)/10000000, 1/10000000, 1/10000000]
    (by norm_num [List.forall_mem_cons, NO_SIGNAL_THRESHOLD])
  refine ⟨?_, ?_, h.2.2.2 1 3 (by norm_num [NO_SIGNAL_THRESHOLD])⟩
  · simpa using h.1
  · rw [h.2.1]
    decide

/-- C8: on a capture failure — acquisition returning nothing or an empty
buffer — the cycle short-circuits: the watchdog counter is unchanged, no
remediation fires, and no gain decision or actuator write is made. -/
theorem C8_capture_failure_short_circuit (lowcut highcut fs : ℚ)
    (cm : List ℚ → ℚ) (count : ℕ) (gR : Option ℚ) :
    cycleStep lowcut highcut fs cm count none gR = Except.ok (count, false, none) ∧
    cycleStep lowcut highcut fs cm count (some []) gR =
      Except.ok (count, false, none) :=
  ⟨rfl, rfl⟩

/-- Counterexample to C6: with the invalid configuration
`lowcut = 8000 ≥ highcut = 2000`, startup performs its gain write without
raising any configuration error, and a steady-state cycle with a successful
capture raises the invalid-configuration error — contradicting that the
error is raised once at startup and never during steady-state operation. -/
theorem C6_counterexample :
    validFilterConfig 8000 2000 SAMPLING_RATE = false ∧
    startupWrite = 34 ∧
    cycleStep 8000 2000 SAMPLING_RATE (fun _ => 0) 0 (some [1]) (some 34) =
      Except.error CycleError.invalidFilterConfig := by
  have h1 : ¬ ((8000 : ℚ) < 2000) := by norm_num
  have hv : validFilterConfig 8000 2000 SAMPLING_RATE = false := by
    simp [validFilterConfig, h1]
  exact ⟨hv, startupWrite_eq, by simp [cycleStep, bandpass_filter, hv]⟩

/-- C6 (amended): an invalid filter configuration is not detected at
startup — the startup step only writes the midpoint gain — and instead the
filter design raises the invalid-configuration error inside the control
loop, on every cycle whose capture succeeds with a nonempty buffer;
capture-failure cycles do not reach the filter. -/
theorem C6_invalid_config_raises_in_loop (lowcut highcut fs : ℚ)
    (hcfg : validFilterConfig lowcut highcut fs = false) :
    (∀ (cm : List ℚ → ℚ) (count : ℕ) (audio : List ℚ) (gR : Option ℚ),
      audio ≠ [] →
      cycleStep lowcut highcut fs cm count (some audio) gR =
        Except.error CycleError.invalidFilterConfig) ∧
    (∀ (cm : List ℚ → ℚ) (count : ℕ) (gR : Option ℚ),
      cycleStep lowcut highcut fs cm count none gR =
        Except.ok (count, false, none)) ∧
    startupWrite = 34 := by
  refine ⟨?_, fun cm count gR => rfl, startupWrite_eq⟩
  intro cm count audio gR hne
  have hlen : ¬ audio.length = 0 := by simpa using hne
  simp [cycleStep, bandpass_filter, hcfg, hlen]

/-- Witness for the amended C6 at the swapped cutoffs 8000/2000. -/
theorem C6_invalid_config_raises_in_loop_witness :
    validFilterConfig 8000 2000 48000 = false ∧
    cycleStep 8000 2000 48000 (fun _ => 0) 0 (some [1]) none =
      Except.error CycleError.invalidFilterConfig := by
  have h1 : ¬ ((8000 : ℚ) < 2000) := by norm_num
  have hcfg : validFilterConfig 8000 2000 48000 = false := by
    simp [validFilterConfig, h1]
  exact ⟨hcfg,
    (C6_invalid_config_raises_in_loop 8000 2000 48000 hcfg).1
      (fun _ => 0) 0 [1] none (by simp)⟩

/-! ### Claims about the level meter and calibration -/

/-- C9: the level meter returns the root-mean-square `sqrt(mean(x_i^2))`:
the empty sequence yields exactly 0, every result is nonnegative, and the
value scales linearly under uniform amplitude scaling. -/
theorem C9_measure_rms :
    measure_rms [] = 0 ∧
    (∀ xs : List ℝ, 0 ≤ measure_rms xs) ∧
    (∀ (k : ℝ) (xs : List ℝ),
      measure_rms (xs.map fun x => k * x) = |k| * measure_rms xs) := by
  refine ⟨by simp [measure_rms], ?_, ?_⟩
  · intro xs
    unfold measure_rms
    split
    · exact Real.sqrt_nonneg _
    · exact le_refl 0
  · intro k xs
    rcases eq_or_ne xs [] with h | h
    · simp [h, measure_rms]
    · have hlen : 0 < xs.length := List.length_pos.mpr h
      have hlen' : 0 < (xs.map fun x => k * x).length := by simpa using hlen
      unfold measure_rms
      rw [if_pos hlen', if_pos hlen, List.map_map, List.length_map]
      have hfun : ((fun x : ℝ => x ^ 2) ∘ fun x => k * x) = fun x => k ^ 2 * x ^ 2 := by
        funext x
        simp [Function.comp, mul_pow]
      rw [hfun]
      have hsum : (xs.map fun x => k ^ 2 * x ^ 2).sum
          = k ^ 2 * (xs.map fun x => x ^ 2).sum := by
        rw [← List.sum_map_mul_left]
      rw [hsum, mul_div_assoc, Real.sqrt_mul (sq_nonneg k), Real.sqrt_sq_eq_abs]

theorem def_full_scale_pos : 0 < def_full_scale := by
  unfold def_full_scale REFERENCE_PRESSURE
  have h0 : (0 : ℝ) < 20e-6 := by norm_num
  exact mul_pos (mul_pos h0 (Real.rpow_pos_of_pos (by norm_num) _))
    (Real.rpow_pos_of_pos (by norm_num) _)

/-- C5: feeding the default microphone profile
`{snr=80, self_noise=14, clipping=120, sensitivity=-28}` through the
calibration transform reproduces the default operating profile exactly:
thresholds 0.01 and 0.001, gain bounds 30 and 38. -/
theorem C5_calibration_identity :
    calibrate_and_propose ⟨80, 14, 120, -28⟩ = ⟨0.01, 0.001, 30, 38⟩ := by
  have h20 : (20e-6 : ℝ) ≠ 0 := by norm_num
  have hA : (10 : ℝ) ^ ((120 : ℝ) / 20) ≠ 0 :=
    ne_of_gt (Real.rpow_pos_of_pos (by norm_num) _)
  have hB : (10 : ℝ) ^ ((-28 : ℝ) / 20) ≠ 0 :=
    ne_of_gt (Real.rpow_pos_of_pos (by norm_num) _)
  have hE : (20e-6 * (10 : ℝ) ^ ((120 : ℝ) / 20) * (10 : ℝ) ^ ((-28 : ℝ) / 20)) ≠ 0 :=
    mul_ne_zero (mul_ne_zero h20 hA) hB
  simp only [calibrate_and_propose, def_full_scale, REFERENCE_PRESSURE, DEFAULT_SNR,
    DEFAULT_CLIPPING, DEFAULT_SENSITIVITY, NOISE_THRESHOLD_HIGH, NOISE_THRESHOLD_LOW,
    MIN_GAIN_DB, MAX_GAIN_DB, Proposal.mk.injEq]
  refine ⟨?_, ?_, ?_, ?_⟩
  · rw [show (80 : ℝ) / 80 = 1 from by norm_num, mul_one, div_mul_cancel₀ _ hE]
    norm_num
  · rw [show (80 : ℝ) / 80 = 1 from by norm_num, mul_one, div_mul_cancel₀ _ hE]
    norm_num
  · push_cast
    norm_num
  · push_cast
    norm_num

/-- C10: for any profile with positive signal-to-noise ratio the transform
preserves the ordering invariants: the proposed low threshold stays
strictly below the proposed high threshold (both defaults are scaled by
the same positive factor), and the proposed gain bounds keep the default
gap (both are shifted by the same sensitivity offset). -/
theorem C10_calibration_invariants (p : MicParams) (hs : 0 < p.snr) :
    (calibrate_and_propose p).noise_threshold_low <
      (calibrate_and_propose p).noise_threshold_high ∧
    (calibrate_and_propose p).max_gain_db - (calibrate_and_propose p).min_gain_db =
      ((MAX_GAIN_DB : ℤ) : ℝ) - ((MIN_GAIN_DB : ℤ) : ℝ) := by
  have hufs : (0 : ℝ) <
      REFERENCE_PRESSURE * (10 : ℝ) ^ (p.clipping / 20) * (10 : ℝ) ^ (p.sensitivity / 20) := by
    have h0 : (0 : ℝ) < REFERENCE_PRESSURE := by norm_num [REFERENCE_PRESSURE]
    exact mul_pos (mul_pos h0 (Real.rpow_pos_of_pos (by norm_num) _))
      (Real.rpow_pos_of_pos (by norm_num) _)
  have hratio : (0 : ℝ) < p.snr / DEFAULT_SNR :=
    div_pos hs (by norm_num [DEFAULT_SNR])
  constructor
  · simp only [calibrate_and_propose]
    refine mul_lt_mul_of_pos_right (mul_lt_mul_of_pos_right ?_ hufs) hratio
    refine (div_lt_div_iff_of_pos_right def_full_scale_pos).mpr ?_
    norm_num [NOISE_THRESHOLD_LOW, NOISE_THRESHOLD_HIGH]
  · simp only [calibrate_and_propose]
    ring

/-- Witness for C10 at the default profile. -/
theorem C10_calibration_invariants_witness :
    (0 : ℝ) < 80 ∧
    (calibrate_and_propose ⟨80, 14, 120, -28⟩).noise_threshold_low <
      (calibrate_and_propose ⟨80, 14, 120, -28⟩).noise_threshold_high :=
  ⟨by norm_num,
    (C10_calibration_invariants ⟨80, 14, 120, -28⟩
      (by show (0 : ℝ) < 80; norm_num)).1⟩

/-- Counterexample to C7: for sensitivity -28.5 the calibration transform
returns min_gain_db = 30.5, which is not a whole decibel — the returned
proposal is not rounded. -/
theorem C7_counterexample :
    (calibrate_and_propose ⟨80, 14, 120, -28.5⟩).min_gain_db = 30.5 ∧
    Int.fract (calibrate_and_propose ⟨80, 14, 120, -28.5⟩).min_gain_db ≠ 0 := by
  have hmin : (calibrate_and_propose ⟨80, 14, 120, -28.5⟩).min_gain_db = 30.5 := by
    simp only [calibrate_and_propose, MIN_GAIN_DB, DEFAULT_SENSITIVITY]
    push_cast
    norm_num
  refine ⟨hmin, ?_⟩
  rw [hmin]
  simp only [Int.fract]
  rw [show ⌊(30.5 : ℝ)⌋ = 30 from by
    rw [Int.floor_eq_iff]
    constructor <;> norm_num]
  norm_num

theorem pyRound_abs_le (x : ℝ) : |(pyRound x : ℝ) - x| ≤ 1/2 := by
  unfold pyRound
  split_ifs with hf he
  · have hx : x - (⌊x⌋ : ℝ) = 1/2 := hf
    rw [abs_le]
    constructor
    · linarith
    · linarith
  · have hx : x - (⌊x⌋ : ℝ) = 1/2 := hf
    rw [abs_le]
    push_cast
    constructor
    · linarith
    · linarith
  · rw [abs_sub_comm]
    exact abs_sub_round x

theorem roundTo7_abs_le (x : ℝ) : |roundTo7 x - x| ≤ 1 / (2 * 10 ^ 7) := by
  unfold roundTo7
  have h7 : (0 : ℝ) < 10 ^ 7 := by norm_num
  have key : (pyRound (x * 10 ^ 7) : ℝ) / 10 ^ 7 - x
      = ((pyRound (x * 10 ^ 7) : ℝ) - x * 10 ^ 7) / 10 ^ 7 := by
    rw [eq_div_iff (ne_of_gt h7), sub_mul, div_mul_cancel₀ _ (ne_of_gt h7)]
  rw [key, abs_div, abs_of_pos h7]
  calc |(pyRound (x * 10 ^ 7) : ℝ) - x * 10 ^ 7| / 10 ^ 7
      ≤ (1/2) / 10 ^ 7 :=
        (div_le_div_iff_of_pos_right h7).mpr (pyRound_abs_le (x * 10 ^ 7))
    _ = 1 / (2 * 10 ^ 7) := by ring

/-- C7 (amended): the calibration transform returns its proposals
unrounded (the min gain bound is exactly the default bound plus the
sensitivity offset); the rounding happens in the persistence step, which
rounds the gain bounds to the nearest whole decibel (within 1/2 dB) and
formats the thresholds to 7 decimal places (an exact multiple of 1e-7,
within half of 1e-7 of the proposal). -/
theorem C7_rounding_at_persistence (p : MicParams) :
    (calibrate_and_propose p).min_gain_db =
      ((MIN_GAIN_DB : ℤ) : ℝ) + (DEFAULT_SENSITIVITY - p.sensitivity) ∧
    |((persistedValues (calibrate_and_propose p)).2.2.1 : ℝ) -
        (calibrate_and_propose p).min_gain_db| ≤ 1/2 ∧
    |((persistedValues (calibrate_and_propose p)).2.2.2 : ℝ) -
        (calibrate_and_propose p).max_gain_db| ≤ 1/2 ∧
    (∃ a : ℤ, (persistedValues (calibrate_and_propose p)).1 = (a : ℝ) / 10 ^ 7) ∧
    |(persistedValues (calibrate_and_propose p)).1 -
        (calibrate_and_propose p).noise_threshold_high| ≤ 1 / (2 * 10 ^ 7) ∧
    (∃ b : ℤ, (persistedValues (calibrate_and_propose p)).2.1 = (b : ℝ) / 10 ^ 7) ∧
    |(persistedValues (calibrate_and_propose p)).2.1 -
        (calibrate_and_propose p).noise_threshold_low| ≤ 1 / (2 * 10 ^ 7) :=
  ⟨rfl, pyRound_abs_le _, pyRound_abs_le _,
    ⟨pyRound ((calibrate_and_propose p).noise_threshold_high * 10 ^ 7), rfl⟩,
    roundTo7_abs_le _,
    ⟨pyRound ((calibrate_and_propose p).noise_threshold_low * 10 ^ 7), rfl⟩,
    roundTo7_abs_le _⟩

end Autogain
